import Mathlib

/-!
Verification of the `aws_lambda_function_url` resource implementation
(`internal/service/lambda/function_url.go`) of the Terraform AWS provider.

The Go code is a CRUD adapter between Terraform resource data and the AWS
Lambda function-URL API.  We embed it shallowly:

* `ResourceData` models the `*schema.ResourceData` fields this resource
  reads and writes (`Get`, `GetOk`, `Set`, `SetId`, `Id`, `IsNewResource`,
  `HasChange`).  `GetOk` on a string is "set and non-empty"; `GetOk` on a
  list is "non-empty".  `HasChange` is the plugin SDK's old/new diff oracle,
  modelled as a Boolean field per attribute the code queries.
* The AWS SDK connection is an oracle `LambdaConn` of pure functions from
  request structs to `Except AWSError`; every SDK error is modelled as an
  `awserr.Error` carrying a code (`tfawserr.ErrCodeEquals` and the
  `err.(awserr.Error)` type assertion only inspect that code).
* `diag.Errorf` produces one error diagnostic; we keep the formatted
  context string and the wrapped Go error separately in `Diagnostics.error`.
* Each CRUD function returns its diagnostics, the updated resource data and
  the list of remote API calls it issued, in order.
* Go panics (out-of-range indexing in the importer) are modelled by
  `Option`: `none` is the panic.
-/

/-- An `awserr.Error` of the AWS SDK for Go: a coded error with a message. -/
structure AWSError where
  code : String
  message : String
  deriving Repr, DecidableEq

/-- Result of a CRUD function: `diag.Diagnostics`.  `ok` is the `nil`
diagnostics; `error` is the single diagnostic produced by `diag.Errorf`,
keeping the formatting context and the wrapped remote error. -/
inductive Diagnostics where
  | ok : Diagnostics
  | error (summary : String) (wrapped : AWSError) : Diagnostics
  deriving Repr, DecidableEq

/-- The remote error carried by an error diagnostic, if any. -/
def Diagnostics.wrappedError : Diagnostics → Option AWSError
  | .ok => none
  | .error _ e => some e

/-- One element of the `cors` attribute list as Terraform stores it: the
typed values of the nested schema (`allow_credentials`, `allow_headers`,
`allow_methods`, `allow_origins`, `expose_headers`, `max_age`). -/
structure CorsConfig where
  allow_credentials : Bool
  allow_headers : List String
  allow_methods : List String
  allow_origins : List String
  expose_headers : List String
  max_age : Int
  deriving Repr, DecidableEq

/-- `lambda.Cors` of the AWS SDK: every field is a pointer, `none` is the
nil pointer omitted from the request. -/
structure Cors where
  allowCredentials : Option Bool := none
  allowHeaders : Option (List String) := none
  allowMethods : Option (List String) := none
  allowOrigins : Option (List String) := none
  exposeHeaders : Option (List String) := none
  maxAge : Option Int := none
  deriving Repr, DecidableEq

/-- The `*schema.ResourceData` state of one `aws_lambda_function_url`
resource, restricted to what `function_url.go` touches.  A `cors` list
element may be `none` (`urlConfigMap[0] != nil` in the source checks this).
`isNewResource` is `d.IsNewResource()`; `authorizationTypeChanged` and
`corsChanged` are `d.HasChange("authorization_type")` and
`d.HasChange("cors")`. -/
structure ResourceData where
  id : String
  function_name : String
  authorization_type : String
  qualifier : String
  cors : List (Option CorsConfig)
  function_arn : String
  function_url : String
  isNewResource : Bool
  authorizationTypeChanged : Bool
  corsChanged : Bool
  deriving Repr, DecidableEq

/-- `lambda.ErrCodeResourceNotFoundException` of the AWS SDK for Go. -/
def ErrCodeResourceNotFoundException : String := "ResourceNotFoundException"

/-- `lambda.FunctionUrlAuthTypeNone` of the AWS SDK for Go. -/
def FunctionUrlAuthTypeNone : String := "NONE"

/-- `lambda.FunctionUrlAuthTypeAwsIam` of the AWS SDK for Go. -/
def FunctionUrlAuthTypeAwsIam : String := "AWS_IAM"

/-- `lambda.FunctionUrlAuthType_Values()` of the AWS SDK for Go. -/
def FunctionUrlAuthType_Values : List String :=
  [FunctionUrlAuthTypeNone, FunctionUrlAuthTypeAwsIam]

/-- `validation.StringInSlice(valid, ignoreCase)` of the Terraform plugin
SDK: the produced `ValidateFunc` accepts exactly the strings of `valid`
(up to case when `ignoreCase`). -/
def stringInSlice (valid : List String) (ignoreCase : Bool) (v : String) : Bool :=
  valid.any (fun s => if ignoreCase then s.toLower == v.toLower else s == v)

/-- `validation.IntAtMost(max)` of the Terraform plugin SDK: the produced
`ValidateFunc` accepts exactly the integers `≤ max`. -/
def intAtMost (max : Int) (v : Int) : Bool :=
  v ≤ max

/-- The `ValidateFunc` of the `authorization_type` attribute:
`validation.StringInSlice(lambda.FunctionUrlAuthType_Values(), false)`. -/
def authorizationTypeValidateFunc (v : String) : Bool :=
  stringInSlice FunctionUrlAuthType_Values false v

/-- The `ValidateFunc` of the `cors.max_age` attribute:
`validation.IntAtMost(86400)`. -/
def corsMaxAgeValidateFunc (v : Int) : Bool :=
  intAtMost 86400 v

/-- `expandFunctionUrlCorsConfigs`: builds a `lambda.Cors` from the raw
`cors` list.  Fields are populated only when the list is exactly one
non-nil element; list fields only when non-empty, `MaxAge` only when
positive. -/
def expandFunctionUrlCorsConfigs (urlConfigMap : List (Option CorsConfig)) : Cors :=
  match urlConfigMap with
  | [some config] =>
    { allowCredentials := some config.allow_credentials
      allowHeaders :=
        if 0 < config.allow_headers.length then some config.allow_headers else none
      allowMethods :=
        if 0 < config.allow_methods.length then some config.allow_methods else none
      allowOrigins :=
        if 0 < config.allow_origins.length then some config.allow_origins else none
      exposeHeaders :=
        if 0 < config.expose_headers.length then some config.expose_headers else none
      maxAge :=
        if 0 < config.max_age then some config.max_age else none }
  | _ => {}

/-- `flattenFunctionUrlCorsConfigs` composed with the `d.Set("cors", ...)`
conversion: a nil `*lambda.Cors` yields nil, otherwise one settings map
whose nil pointers `d.Set` converts to the zero values. -/
def flattenFunctionUrlCorsConfigs : Option Cors → List (Option CorsConfig)
  | none => []
  | some cors =>
    [some
      { allow_credentials := cors.allowCredentials.getD false
        allow_headers := cors.allowHeaders.getD []
        allow_methods := cors.allowMethods.getD []
        allow_origins := cors.allowOrigins.getD []
        expose_headers := cors.exposeHeaders.getD []
        max_age := cors.maxAge.getD 0 }]

/-- `lambda.CreateFunctionUrlConfigInput`. -/
structure CreateFunctionUrlConfigInput where
  authType : String
  functionName : String
  cors : Option Cors := none
  qualifier : Option String := none
  deriving Repr, DecidableEq

/-- `lambda.CreateFunctionUrlConfigOutput`, restricted to the field the
code reads (`FunctionArn`, dereferenced by `aws.StringValue`). -/
structure CreateFunctionUrlConfigOutput where
  functionArn : String
  deriving Repr, DecidableEq

/-- `lambda.AddPermissionInput`, restricted to the fields the code sets. -/
structure AddPermissionInput where
  action : String
  functionName : String
  functionUrlAuthType : String
  principal : String
  statementId : String
  deriving Repr, DecidableEq

/-- `lambda.GetFunctionUrlConfigInput`. -/
structure GetFunctionUrlConfigInput where
  functionName : String
  qualifier : Option String := none
  deriving Repr, DecidableEq

/-- `lambda.GetFunctionUrlConfigOutput`, restricted to the fields the code
reads; string pointers are dereferenced by `d.Set`. -/
structure GetFunctionUrlConfigOutput where
  authType : String
  cors : Option Cors
  functionArn : String
  functionUrl : String
  deriving Repr, DecidableEq

/-- `lambda.UpdateFunctionUrlConfigInput`. -/
structure UpdateFunctionUrlConfigInput where
  functionName : String
  qualifier : Option String := none
  authType : Option String := none
  cors : Option Cors := none
  deriving Repr, DecidableEq

/-- `lambda.DeleteFunctionUrlConfigInput`. -/
structure DeleteFunctionUrlConfigInput where
  functionName : String
  qualifier : Option String := none
  deriving Repr, DecidableEq

/-- One remote AWS API call issued by a CRUD function, with its request. -/
inductive RemoteCall where
  | createFunctionUrlConfig (input : CreateFunctionUrlConfigInput)
  | addPermission (input : AddPermissionInput)
  | getFunctionUrlConfig (input : GetFunctionUrlConfigInput)
  | updateFunctionUrlConfig (input : UpdateFunctionUrlConfigInput)
  | deleteFunctionUrlConfig (input : DeleteFunctionUrlConfigInput)
  deriving Repr, DecidableEq

/-- The Lambda SDK connection (`conn`), as a response oracle: what the
remote service answers to each request.  Outputs the code never reads are
`Unit`. -/
structure LambdaConn where
  createFunctionUrlConfig :
    CreateFunctionUrlConfigInput → Except AWSError CreateFunctionUrlConfigOutput
  addPermission : AddPermissionInput → Except AWSError Unit
  getFunctionUrlConfig :
    GetFunctionUrlConfigInput → Except AWSError GetFunctionUrlConfigOutput
  updateFunctionUrlConfig : UpdateFunctionUrlConfigInput → Except AWSError Unit
  deleteFunctionUrlConfig : DeleteFunctionUrlConfigInput → Except AWSError Unit

/-- `tfawserr.ErrCodeEquals(err, code)`: true when the error is non-nil,
is an `awserr.Error`, and its code equals `code`. -/
def errCodeEquals : Option AWSError → String → Bool
  | some e, code => e.code == code
  | none, _ => false

/-- The `CreateFunctionUrlConfigInput` built by `resourceFunctionURLCreate`
from the resource data (`d.Get`/`d.GetOk`). -/
def createInput (d : ResourceData) : CreateFunctionUrlConfigInput :=
  { authType := d.authorization_type
    functionName := d.function_name
    cors :=
      if 0 < d.cors.length then some (expandFunctionUrlCorsConfigs d.cors) else none
    qualifier := if d.qualifier = "" then none else some d.qualifier }

/-- The `AddPermissionInput` built by `resourceFunctionURLCreate` for a
public (`NONE` authorization) function URL. -/
def permissionInput (d : ResourceData) : AddPermissionInput :=
  { action := "lambda:InvokeFunctionUrl"
    functionName := d.function_name
    functionUrlAuthType := d.authorization_type
    principal := "*"
    statementId := "FunctionURLAllowPublicAccess" }

/-- The `GetFunctionUrlConfigInput` built by `resourceFunctionURLRead`. -/
def readInput (d : ResourceData) : GetFunctionUrlConfigInput :=
  { functionName := d.function_name
    qualifier := if d.qualifier = "" then none else some d.qualifier }

/-- The `UpdateFunctionUrlConfigInput` built by `resourceFunctionURLUpdate`:
`FunctionName` always, `Qualifier` when set, `AuthType` and `Cors` only
when `d.HasChange` reports a change. -/
def updateParams (d : ResourceData) : UpdateFunctionUrlConfigInput :=
  { functionName := d.function_name
    qualifier := if d.qualifier = "" then none else some d.qualifier
    authType :=
      if d.authorizationTypeChanged then some d.authorization_type else none
    cors :=
      if d.corsChanged then some (expandFunctionUrlCorsConfigs d.cors) else none }

/-- The `DeleteFunctionUrlConfigInput` built by `resourceFunctionURLDelete`. -/
def deleteParams (d : ResourceData) : DeleteFunctionUrlConfigInput :=
  { functionName := d.function_name
    qualifier := if d.qualifier = "" then none else some d.qualifier }

/-- `resourceFunctionURLRead`: issues `GetFunctionUrlConfig`; on a
`ResourceNotFoundException` for a resource that is not new, clears the ID
and succeeds; on any other error returns an error diagnostic; on success
stores the returned attributes. -/
def resourceFunctionURLRead (conn : LambdaConn) (d : ResourceData) :
    Diagnostics × ResourceData × List RemoteCall :=
  match conn.getFunctionUrlConfig (readInput d) with
  | .error e =>
    if e.code == ErrCodeResourceNotFoundException && !d.isNewResource then
      (.ok, { d with id := "" }, [RemoteCall.getFunctionUrlConfig (readInput d)])
    else
      (.error ("error getting Lambda Function Url Config (" ++ d.id ++ ")") e, d,
        [RemoteCall.getFunctionUrlConfig (readInput d)])
  | .ok output =>
    (.ok,
      { d with
        authorization_type := output.authType
        cors := flattenFunctionUrlCorsConfigs output.cors
        function_arn := output.functionArn
        function_url := output.functionUrl },
      [RemoteCall.getFunctionUrlConfig (readInput d)])

/-- `resourceFunctionURLCreate`: issues `CreateFunctionUrlConfig`, stores
the ARN as the ID, adds the public-access permission when the
authorization type is `NONE`, then delegates to the read function. -/
def resourceFunctionURLCreate (conn : LambdaConn) (d : ResourceData) :
    Diagnostics × ResourceData × List RemoteCall :=
  match conn.createFunctionUrlConfig (createInput d) with
  | .error e =>
    (.error ("error creating Lambda Function URL (" ++ d.function_name ++ ")") e, d,
      [RemoteCall.createFunctionUrlConfig (createInput d)])
  | .ok output =>
    if d.authorization_type == FunctionUrlAuthTypeNone then
      match conn.addPermission (permissionInput { d with id := output.functionArn }) with
      | .error e =>
        (.error ("error adding Lambda Function URL (" ++ output.functionArn ++ ") permission") e,
          { d with id := output.functionArn },
          [RemoteCall.createFunctionUrlConfig (createInput d),
            RemoteCall.addPermission (permissionInput { d with id := output.functionArn })])
      | .ok _ =>
        ((resourceFunctionURLRead conn { d with id := output.functionArn }).1,
          (resourceFunctionURLRead conn { d with id := output.functionArn }).2.1,
          RemoteCall.createFunctionUrlConfig (createInput d) ::
            RemoteCall.addPermission (permissionInput { d with id := output.functionArn }) ::
              (resourceFunctionURLRead conn { d with id := output.functionArn }).2.2)
    else
      ((resourceFunctionURLRead conn { d with id := output.functionArn }).1,
        (resourceFunctionURLRead conn { d with id := output.functionArn }).2.1,
        RemoteCall.createFunctionUrlConfig (createInput d) ::
          (resourceFunctionURLRead conn { d with id := output.functionArn }).2.2)

/-- `resourceFunctionURLUpdate`: issues `UpdateFunctionUrlConfig` and, on
success, delegates to the read function. -/
def resourceFunctionURLUpdate (conn : LambdaConn) (d : ResourceData) :
    Diagnostics × ResourceData × List RemoteCall :=
  match conn.updateFunctionUrlConfig (updateParams d) with
  | .error e =>
    (.error ("error updating Lambda Function Url (" ++ d.id ++ ")") e, d,
      [RemoteCall.updateFunctionUrlConfig (updateParams d)])
  | .ok _ =>
    ((resourceFunctionURLRead conn d).1, (resourceFunctionURLRead conn d).2.1,
      RemoteCall.updateFunctionUrlConfig (updateParams d) ::
        (resourceFunctionURLRead conn d).2.2)

/-- `resourceFunctionURLDelete`: issues `DeleteFunctionUrlConfig`; a
`ResourceNotFoundException` is swallowed, any other error is returned as a
diagnostic. -/
def resourceFunctionURLDelete (conn : LambdaConn) (d : ResourceData) :
    Diagnostics × List RemoteCall :=
  match conn.deleteFunctionUrlConfig (deleteParams d) with
  | .error e =>
    if errCodeEquals (some e) ErrCodeResourceNotFoundException then
      (.ok, [RemoteCall.deleteFunctionUrlConfig (deleteParams d)])
    else
      (.error ("error deleting Lambda Function Url (" ++ d.id ++ ")") e,
        [RemoteCall.deleteFunctionUrlConfig (deleteParams d)])
  | .ok _ => (.ok, [RemoteCall.deleteFunctionUrlConfig (deleteParams d)])

/-- Go `strings.Split` on a single-character separator, over the character
list: `strings.Split("", sep)` is `[""]`, and the result always has one
more element than there are separators. -/
def goSplitChars (sep : Char) : List Char → List (List Char)
  | [] => [[]]
  | c :: cs =>
    let rest := goSplitChars sep cs
    if c = sep then [] :: rest
    else
      match rest with
      | [] => [[c]]
      | r :: rs => (c :: r) :: rs

/-- Go `strings.Split(s, sep)` for a single-character separator. -/
def goSplit (s : String) (sep : Char) : List String :=
  (goSplitChars sep s.data).map (fun l => String.mk l)

/-- `resourceFunctionUrlImport`: splits `d.Id()` on `:` and stores the
second-to-last segment as `function_name` and the last as `qualifier`.
Go indexes `idSplit[len(idSplit)-2]`, which panics (index out of range)
when the split has fewer than two segments; the panic is `none`. -/
def resourceFunctionUrlImport (d : ResourceData) : Option ResourceData :=
  if h : 2 ≤ (goSplit d.id ':').length then
    some
      { d with
        function_name := (goSplit d.id ':').get ⟨(goSplit d.id ':').length - 2, by omega⟩
        qualifier := (goSplit d.id ':').get ⟨(goSplit d.id ':').length - 1, by omega⟩ }
  else
    none

/-- The `AddPermission` requests among a list of issued calls. -/
def addPermissionCalls (calls : List RemoteCall) : List AddPermissionInput :=
  calls.filterMap fun c =>
    match c with
    | .addPermission i => some i
    | _ => none

/-- The `UpdateFunctionUrlConfig` requests among a list of issued calls. -/
def updateConfigCalls (calls : List RemoteCall) : List UpdateFunctionUrlConfigInput :=
  calls.filterMap fun c =>
    match c with
    | .updateFunctionUrlConfig i => some i
    | _ => none

/-- An oracle that answers every request successfully, with fixed outputs. -/
def okConn : LambdaConn :=
  { createFunctionUrlConfig := fun _ =>
      .ok { functionArn := "arn:aws:lambda:us-east-1:123456789012:function:example" }
    addPermission := fun _ => .ok ()
    getFunctionUrlConfig := fun _ =>
      .ok { authType := "NONE", cors := none,
            functionArn := "arn:aws:lambda:us-east-1:123456789012:function:example",
            functionUrl := "https://example.lambda-url.us-east-1.on.aws/" }
    updateFunctionUrlConfig := fun _ => .ok ()
    deleteFunctionUrlConfig := fun _ => .ok () }

/-- An oracle that answers every request with the same error. -/
def errConn (e : AWSError) : LambdaConn :=
  { createFunctionUrlConfig := fun _ => .error e
    addPermission := fun _ => .error e
    getFunctionUrlConfig := fun _ => .error e
    updateFunctionUrlConfig := fun _ => .error e
    deleteFunctionUrlConfig := fun _ => .error e }

/-- The not-found error of the Lambda API. -/
def rnfe : AWSError :=
  { code := ErrCodeResourceNotFoundException
    message := "The resource you requested does not exist." }

/-- Some remote error that is not a not-found error. -/
def accessDenied : AWSError :=
  { code := "AccessDeniedException", message := "User is not authorized." }

/-- Resource data as during a first create: new resource, public auth. -/
def exampleNew : ResourceData :=
  { id := "", function_name := "example", authorization_type := "NONE",
    qualifier := "", cors := [], function_arn := "", function_url := "",
    isNewResource := true, authorizationTypeChanged := false, corsChanged := false }

/-- Resource data of an existing (not new) resource with a qualifier. -/
def exampleOld : ResourceData :=
  { id := "arn:aws:lambda:us-east-1:123456789012:function:example"
    function_name := "example", authorization_type := "AWS_IAM", qualifier := "live"
    cors := [], function_arn := "arn:aws:lambda:us-east-1:123456789012:function:example"
    function_url := "https://example.lambda-url.us-east-1.on.aws/"
    isNewResource := false, authorizationTypeChanged := true, corsChanged := false }

/-- Resource data inside a create, after SetId: still new, ID populated. -/
def exampleNewWithId : ResourceData :=
  { exampleNew with id := "arn:aws:lambda:us-east-1:123456789012:function:example" }

/-- Import fixture whose ID contains colons. -/
def importColonData : ResourceData := { exampleNew with id := "example:live" }

/-- Import fixture whose ID contains no colon. -/
def importNoColonData : ResourceData := { exampleNew with id := "examplefunction" }

/-- The read function issues exactly its one GetFunctionUrlConfig call, on
every path. -/
theorem read_calls_eq (conn : LambdaConn) (d : ResourceData) :
    (resourceFunctionURLRead conn d).2.2 =
      [RemoteCall.getFunctionUrlConfig (readInput d)] := by
  unfold resourceFunctionURLRead
  split
  · split <;> rfl
  · rfl

/-- The split of a character list has one more piece than separators. -/
theorem goSplitChars_length (sep : Char) (l : List Char) :
    (goSplitChars sep l).length = l.count sep + 1 := by
  induction l with
  | nil => rfl
  | cons c cs ih =>
    unfold goSplitChars
    by_cases h : c = sep
    · simp [h, List.count_cons, ih]
    · simp only [if_neg h]
      have hne : sep ≠ c := fun hh => h hh.symm
      have hcount : (c :: cs).count sep = cs.count sep := by
        simp [List.count_cons, hne]
      cases hr : goSplitChars sep cs with
      | nil => rw [hr] at ih; simp at ih
      | cons r rs =>
        rw [hr] at ih
        rw [hcount]
        simp only [List.length_cons] at ih ⊢
        omega

/-- The Go split of a string has one more piece than separators. -/
theorem goSplit_length (s : String) (sep : Char) :
    (goSplit s sep).length = s.data.count sep + 1 := by
  simp [goSplit, goSplitChars_length]

/-- The split has at least two pieces exactly when the separator occurs. -/
theorem two_le_goSplit_length_iff (s : String) (sep : Char) :
    2 ≤ (goSplit s sep).length ↔ sep ∈ s.data := by
  rw [goSplit_length]
  constructor
  · intro h
    exact List.count_pos_iff.mp (by omega)
  · intro h
    have := List.count_pos_iff.mpr h
    omega

/-- C1: if the remote DeleteFunctionUrlConfig call answers with an error
whose code is ResourceNotFoundException, resourceFunctionURLDelete returns
nil diagnostics rather than an error, so deleting an already-deleted
function URL is idempotent. -/
theorem delete_notfound_is_idempotent
    (conn : LambdaConn) (d : ResourceData) (e : AWSError)
    (hcall : conn.deleteFunctionUrlConfig (deleteParams d) = .error e)
    (hcode : e.code = ErrCodeResourceNotFoundException) :
    (resourceFunctionURLDelete conn d).1 = Diagnostics.ok := by
  unfold resourceFunctionURLDelete
  rw [hcall]
  simp [errCodeEquals, hcode]

/-- Witness for C1: a connection answering every delete with a not-found
error still yields nil diagnostics. -/
theorem delete_notfound_is_idempotent_witness :
    (resourceFunctionURLDelete (errConn rnfe) exampleOld).1 = Diagnostics.ok :=
  delete_notfound_is_idempotent (errConn rnfe) exampleOld rnfe rfl rfl

/-- C2 counterexample: a read of a resource that is new in this operation
and receives ResourceNotFoundException returns an error diagnostic and
leaves the ID unchanged, instead of clearing the ID and succeeding; the
claim fails on new resources because of the IsNewResource guard. -/
theorem read_notfound_new_resource_cex :
    (resourceFunctionURLRead (errConn rnfe) exampleNewWithId).1 ≠ Diagnostics.ok ∧
    (resourceFunctionURLRead (errConn rnfe) exampleNewWithId).2.1.id ≠ "" := by
  decide

/-- C2 amended: for a read of a resource that is not new in this
operation, a remote ResourceNotFoundException makes the read clear the
resource ID to the empty string (dropping it from state) and return nil
diagnostics; only the ID changes. -/
theorem read_notfound_clears_id
    (conn : LambdaConn) (d : ResourceData) (e : AWSError)
    (hcall : conn.getFunctionUrlConfig (readInput d) = .error e)
    (hcode : e.code = ErrCodeResourceNotFoundException)
    (hnew : d.isNewResource = false) :
    (resourceFunctionURLRead conn d).1 = Diagnostics.ok ∧
    (resourceFunctionURLRead conn d).2.1 = { d with id := "" } := by
  unfold resourceFunctionURLRead
  rw [hcall]
  simp [hcode, hnew]

/-- Witness for the amended C2 at a concrete connection and resource. -/
theorem read_notfound_clears_id_witness :
    (resourceFunctionURLRead (errConn rnfe) exampleOld).1 = Diagnostics.ok ∧
    (resourceFunctionURLRead (errConn rnfe) exampleOld).2.1 = { exampleOld with id := "" } :=
  read_notfound_clears_id (errConn rnfe) exampleOld rnfe rfl rfl rfl

/-- C8: in each of the four CRUD operations, a remote error whose code is
not ResourceNotFoundException is returned as an error diagnostic wrapping
exactly that remote error. -/
theorem non_notfound_errors_wrapped
    (conn : LambdaConn) (d : ResourceData) (e : AWSError)
    (hcode : e.code ≠ ErrCodeResourceNotFoundException) :
    (conn.createFunctionUrlConfig (createInput d) = .error e →
      (resourceFunctionURLCreate conn d).1.wrappedError = some e) ∧
    (conn.getFunctionUrlConfig (readInput d) = .error e →
      (resourceFunctionURLRead conn d).1.wrappedError = some e) ∧
    (conn.updateFunctionUrlConfig (updateParams d) = .error e →
      (resourceFunctionURLUpdate conn d).1.wrappedError = some e) ∧
    (conn.deleteFunctionUrlConfig (deleteParams d) = .error e →
      (resourceFunctionURLDelete conn d).1.wrappedError = some e) := by
  have hbeq : (e.code == ErrCodeResourceNotFoundException) = false := by
    simp [hcode]
  refine ⟨?_, ?_, ?_, ?_⟩
  · intro hcall
    unfold resourceFunctionURLCreate
    rw [hcall]
    rfl
  · intro hcall
    unfold resourceFunctionURLRead
    rw [hcall]
    simp [hbeq, Diagnostics.wrappedError]
  · intro hcall
    unfold resourceFunctionURLUpdate
    rw [hcall]
    rfl
  · intro hcall
    unfold resourceFunctionURLDelete
    rw [hcall]
    simp [errCodeEquals, hbeq, Diagnostics.wrappedError]

/-- Witness for C8: an access-denied error is wrapped by all four
operations. -/
theorem non_notfound_errors_wrapped_witness :
    (resourceFunctionURLCreate (errConn accessDenied) exampleOld).1.wrappedError =
      some accessDenied ∧
    (resourceFunctionURLRead (errConn accessDenied) exampleOld).1.wrappedError =
      some accessDenied ∧
    (resourceFunctionURLUpdate (errConn accessDenied) exampleOld).1.wrappedError =
      some accessDenied ∧
    (resourceFunctionURLDelete (errConn accessDenied) exampleOld).1.wrappedError =
      some accessDenied := by
  have h := non_notfound_errors_wrapped (errConn accessDenied) exampleOld accessDenied
    (by decide)
  exact ⟨h.1 rfl, h.2.1 rfl, h.2.2.1 rfl, h.2.2.2 rfl⟩

/-- C3: once the CreateFunctionUrlConfig call has succeeded, the create
operation issues an AddPermission call if and only if the configured
authorization_type is NONE, and then exactly one such call, carrying
Action lambda:InvokeFunctionUrl, Principal *, and StatementId
FunctionURLAllowPublicAccess. -/
theorem create_public_permission_iff_auth_none
    (conn : LambdaConn) (d : ResourceData) (out : CreateFunctionUrlConfigOutput)
    (hcall : conn.createFunctionUrlConfig (createInput d) = .ok out) :
    addPermissionCalls (resourceFunctionURLCreate conn d).2.2 =
      (if d.authorization_type = FunctionUrlAuthTypeNone
        then [permissionInput d] else []) ∧
    (permissionInput d).action = "lambda:InvokeFunctionUrl" ∧
    (permissionInput d).principal = "*" ∧
    (permissionInput d).statementId = "FunctionURLAllowPublicAccess" := by
  refine ⟨?_, rfl, rfl, rfl⟩
  unfold resourceFunctionURLCreate
  rw [hcall]
  by_cases h : d.authorization_type = FunctionUrlAuthTypeNone
  · rw [if_pos h]
    dsimp only
    rw [if_pos (by simp [h])]
    cases conn.addPermission (permissionInput { d with id := out.functionArn })
    · rfl
    · simp [addPermissionCalls, read_calls_eq, permissionInput]
  · rw [if_neg h]
    dsimp only
    rw [if_neg (by simp [h])]
    simp [addPermissionCalls, read_calls_eq]

/-- Witness for C3: a successful public create issues exactly the public
AddPermission call. -/
theorem create_public_permission_iff_auth_none_witness :
    addPermissionCalls (resourceFunctionURLCreate okConn exampleNew).2.2 =
      (if exampleNew.authorization_type = FunctionUrlAuthTypeNone
        then [permissionInput exampleNew] else []) ∧
    (permissionInput exampleNew).action = "lambda:InvokeFunctionUrl" ∧
    (permissionInput exampleNew).principal = "*" ∧
    (permissionInput exampleNew).statementId = "FunctionURLAllowPublicAccess" :=
  create_public_permission_iff_auth_none okConn exampleNew
    { functionArn := "arn:aws:lambda:us-east-1:123456789012:function:example" } rfl

/-- C7 counterexample: a successful create of a public function URL issues
three remote calls (CreateFunctionUrlConfig, AddPermission and the
follow-up GetFunctionUrlConfig), not exactly one. -/
theorem single_remote_call_cex :
    (resourceFunctionURLCreate okConn exampleNew).2.2.length = 3 ∧
    (resourceFunctionURLCreate okConn exampleNew).2.2.length ≠ 1 := by
  decide

/-- C7 amended: read and delete issue exactly one remote call each; update
issues its UpdateFunctionUrlConfig call plus, on success, the single call
of the follow-up read; create issues its CreateFunctionUrlConfig call, on
success an AddPermission call exactly when authorization_type is NONE,
plus the single call of the follow-up read once every prior call
succeeded. -/
theorem remote_call_counts (conn : LambdaConn) (d : ResourceData) :
    (resourceFunctionURLRead conn d).2.2.length = 1 ∧
    (resourceFunctionURLDelete conn d).2.length = 1 ∧
    ((resourceFunctionURLUpdate conn d).2.2.length =
      match conn.updateFunctionUrlConfig (updateParams d) with
      | .error _ => 1
      | .ok _ => 2) ∧
    ((resourceFunctionURLCreate conn d).2.2.length =
      match conn.createFunctionUrlConfig (createInput d) with
      | .error _ => 1
      | .ok output =>
        if d.authorization_type = FunctionUrlAuthTypeNone then
          match conn.addPermission (permissionInput { d with id := output.functionArn }) with
          | .error _ => 2
          | .ok _ => 3
        else 2) := by
  refine ⟨by rw [read_calls_eq]; rfl, ?_, ?_, ?_⟩
  · unfold resourceFunctionURLDelete
    split
    · split <;> rfl
    · rfl
  · unfold resourceFunctionURLUpdate
    cases conn.updateFunctionUrlConfig (updateParams d)
    · rfl
    · simp [read_calls_eq]
  · unfold resourceFunctionURLCreate
    cases conn.createFunctionUrlConfig (createInput d)
    · rfl
    · rename_i output
      dsimp only
      by_cases h : d.authorization_type = FunctionUrlAuthTypeNone
      · rw [if_pos h,
          if_pos (show (d.authorization_type == FunctionUrlAuthTypeNone) = true by simp [h])]
        cases conn.addPermission (permissionInput { d with id := output.functionArn })
        · rfl
        · simp [read_calls_eq]
      · rw [if_neg h,
          if_neg (show ¬ (d.authorization_type == FunctionUrlAuthTypeNone) = true by simp [h])]
        simp [read_calls_eq]

/-- C9: the update operation issues exactly one UpdateFunctionUrlConfig
request; it always carries the function name, carries the qualifier iff
one is set, the auth type iff authorization_type changed, and the CORS
config iff cors changed; unchanged fields are omitted (nil). -/
theorem update_request_frame (conn : LambdaConn) (d : ResourceData) :
    updateConfigCalls (resourceFunctionURLUpdate conn d).2.2 = [updateParams d] ∧
    (updateParams d).functionName = d.function_name ∧
    ((updateParams d).qualifier = if d.qualifier = "" then none else some d.qualifier) ∧
    ((updateParams d).authType =
      if d.authorizationTypeChanged then some d.authorization_type else none) ∧
    ((updateParams d).cors =
      if d.corsChanged then some (expandFunctionUrlCorsConfigs d.cors) else none) := by
  refine ⟨?_, rfl, rfl, rfl, rfl⟩
  unfold resourceFunctionURLUpdate
  cases conn.updateFunctionUrlConfig (updateParams d)
  · rfl
  · simp [updateConfigCalls, read_calls_eq]

/-- C4 counterexample: on an import ID with no colon, the importer does
not set the attributes; the index-out-of-range panic (modelled as none)
is reached instead, so the claim fails on colon-free IDs. -/
theorem import_no_colon_cex :
    resourceFunctionUrlImport { exampleOld with id := "example" } = none := by
  decide

/-- C4 amended: for every import ID containing at least one colon, the
importer succeeds and sets function_name to the second-to-last and
qualifier to the last colon-separated segment, leaving everything else
unchanged. -/
theorem import_sets_name_and_qualifier
    (d : ResourceData) (h : ':' ∈ d.id.data) :
    resourceFunctionUrlImport d =
      some
        { d with
          function_name := (goSplit d.id ':').getD ((goSplit d.id ':').length - 2) ""
          qualifier := (goSplit d.id ':').getD ((goSplit d.id ':').length - 1) "" } := by
  have h2 : 2 ≤ (goSplit d.id ':').length := (two_le_goSplit_length_iff _ _).mpr h
  unfold resourceFunctionUrlImport
  rw [dif_pos h2]
  have e1 : (goSplit d.id ':').getD ((goSplit d.id ':').length - 2) "" =
      (goSplit d.id ':').get ⟨(goSplit d.id ':').length - 2, by omega⟩ :=
    List.getD_eq_get _ _ (by omega)
  have e2 : (goSplit d.id ':').getD ((goSplit d.id ':').length - 1) "" =
      (goSplit d.id ':').get ⟨(goSplit d.id ':').length - 1, by omega⟩ :=
    List.getD_eq_get _ _ (by omega)
  rw [e1, e2]

/-- Witness for the amended C4 at a concrete two-segment ID. -/
theorem import_sets_name_and_qualifier_witness :
    ':' ∈ importColonData.id.data ∧
    resourceFunctionUrlImport importColonData =
      some
        { importColonData with
          function_name :=
            (goSplit importColonData.id ':').getD
              ((goSplit importColonData.id ':').length - 2) ""
          qualifier :=
            (goSplit importColonData.id ':').getD
              ((goSplit importColonData.id ':').length - 1) "" } :=
  ⟨by decide, import_sets_name_and_qualifier importColonData (by decide)⟩

/-- C5 counterexample: the importer is not total over all import ID
strings; on an ID with no colon it reaches the out-of-range access
(modelled as none) instead of returning data. -/
theorem import_not_total_cex :
    resourceFunctionUrlImport { exampleOld with id := "examplefunction" } = none := by
  decide

/-- C5 amended: the importer is total only on IDs containing at least one
colon: splitting a colon-free ID yields a single segment, the access at
index length-2 is then out of bounds (the panic, modelled as none), and
the importer succeeds exactly when the ID contains a colon. -/
theorem import_total_iff_colon (d : ResourceData) :
    ((resourceFunctionUrlImport d).isSome = true ↔ ':' ∈ d.id.data) ∧
    (':' ∉ d.id.data →
      (goSplit d.id ':').length = 1 ∧ resourceFunctionUrlImport d = none) := by
  constructor
  · rw [← two_le_goSplit_length_iff]
    unfold resourceFunctionUrlImport
    split
    · simpa
    · rename_i hlt
      simpa using hlt
  · intro hno
    have h1 : (goSplit d.id ':').length = d.id.data.count ':' + 1 := goSplit_length _ _
    have hc : d.id.data.count ':' = 0 := by
      by_contra hne
      exact hno (List.count_pos_iff.mp (Nat.pos_of_ne_zero hne))
    refine ⟨by omega, ?_⟩
    unfold resourceFunctionUrlImport
    rw [dif_neg (by omega)]

/-- Witness for the amended C5 at a concrete colon-free ID. -/
theorem import_total_iff_colon_witness :
    (goSplit importNoColonData.id ':').length = 1 ∧
    resourceFunctionUrlImport importNoColonData = none :=
  (import_total_iff_colon importNoColonData).2 (by decide)

/-- C6 counterexample: the schema does perform local validation before any
API call: the authorization_type ValidateFunc rejects a string outside
the SDK enum and the cors.max_age ValidateFunc rejects 86401. -/
theorem schema_validates_locally_cex :
    authorizationTypeValidateFunc "BOGUS" = false ∧
    corsMaxAgeValidateFunc 86401 = false := by
  decide

/-- C6 amended: the schema performs exactly two local validations:
authorization_type must be one of the SDK enum values NONE or AWS_IAM
(case-sensitively), and cors.max_age must be at most 86400. -/
theorem schema_validators_characterized :
    (∀ s : String, authorizationTypeValidateFunc s = true ↔
      (s = FunctionUrlAuthTypeNone ∨ s = FunctionUrlAuthTypeAwsIam)) ∧
    (∀ n : Int, corsMaxAgeValidateFunc n = true ↔ n ≤ 86400) := by
  constructor
  · intro s
    constructor
    · intro hs
      simp [authorizationTypeValidateFunc, stringInSlice,
        FunctionUrlAuthType_Values] at hs
      rcases hs with hs | hs
      · exact Or.inl hs.symm
      · exact Or.inr hs.symm
    · intro hs
      rcases hs with hs | hs <;>
        simp [authorizationTypeValidateFunc, stringInSlice,
          FunctionUrlAuthType_Values, hs]
  · intro n
    simp [corsMaxAgeValidateFunc, intAtMost]
